import Mathlib

/-!
Shallow embedding of the session-lifecycle and streaming-event logic of
`src/App.tsx` (a real-time speech-transcription client).

The component state (React `useState`/`useRef` slices) is collected into one
`AppState` record.  The socket event handlers registered in the `useEffect`
block become the pure step function `handleEvent`; the async operations
`initTranscription`, `startRecording` and `stopRecording` become state
transformers, with the outcome of each external effect (control-request
fetch success, microphone permission) passed in as a boolean parameter.
`RecordRTC` instances are modelled by numeric identifiers allocated from a
counter; calls to their start/stop methods are recorded in lists so that
resource usage is observable.
-/

/-- Mirror of the source interface `TranscriptSegment` (App.tsx lines 17-20):
`text : string`, `speakerId?: string`.  `text` is kept as `Option String`
because the handlers copy `data.text` straight from the wire, where the field
may be absent (JS `undefined`); `speakerId` is always a `String` because every
handler applies the fallback `data.speakerId || "?"`.  There is no further
field: in particular the interface carries no finality attribute. -/
structure TranscriptSegment where
  text : Option String
  speakerId : String
deriving Repr, DecidableEq

/-- Semantics of the JavaScript expression `a || b` on two string-typed
fields that may each be absent: `undefined` and `""` are falsy, so the
result is `b` exactly when `a` is absent or empty (App.tsx line 77,
`data.transcript || data.text`). -/
def jsOrString (a b : Option String) : Option String :=
  match a with
  | none => b
  | some s => if s = "" then b else some s

/-- Semantics of `data.speakerId || "?"` (App.tsx lines 54, 62, 70, 77):
an absent or empty speaker id falls back to the unknown-speaker
sentinel `"?"`. -/
def speakerOrUnknown (sp : Option String) : String :=
  match sp with
  | none => "?"
  | some s => if s = "" then "?" else s

/-- The inbound socket events the `useEffect` block registers handlers for
(App.tsx lines 46-88).  Payload fields that the handlers read are modelled;
fields may be absent on the wire, hence `Option String`.  The constructor
names are camel-cased versions of the wire event names
(`"partial_result"`, `"final_result"`, `"transcribe_partial"`,
`"transcribe_final"`, `"transcription_progress"`, `"chapter_titles"`,
`"join_room"`). -/
inductive ServerEvent where
  | joinRoom (room : String)
  | partialResult (text : Option String) (speakerId : Option String)
  | finalResult (text : Option String) (speakerId : Option String)
  | transcribePartial (text : Option String) (speakerId : Option String)
  | transcribeFinal (transcript : Option String) (text : Option String)
      (speakerId : Option String)
  | transcriptionProgress (progress : Int)
  | chapterTitles (titles : String)
deriving Repr, DecidableEq

/-- The two control endpoints the client POSTs to
(`/start_transcription_ct` in `initTranscription`, `/stop_transcription`
in `stopRecording`). -/
inductive ControlReq where
  | start
  | stop
deriving Repr, DecidableEq

/-- The one fatal error of the start sequence: `getUserMedia` rejecting
(microphone permission denied / unavailable).  The control-request fetches
cannot surface an error because both are wrapped in try/catch. -/
inductive StartErr where
  | permissionError
deriving Repr, DecidableEq

/-- The component state of `App` plus the observable effect trace.
React state slices (App.tsx lines 25-32): `recording`, `transcripts`,
`chapterTitles`, `progress`.  Refs: `recordRTC` models
`recordRTCRef.current` (the id of the current recorder instance or none),
`socketConnected` models whether the Socket.IO connection set up by the
`useEffect` is still connected.  Effect trace: `startedRecorders` /
`stoppedRecorders` record on which recorder instances `startRecording()` /
`stopRecording()` (the RecordRTC methods) were invoked, `sentChunks` counts
`audio_data` emissions, `controlRequests` records the control POSTs in
order, `loggedErrors` counts `console.error` calls, and `nextRecorderId`
is the allocator for fresh recorder ids. -/
structure AppState where
  recording : Bool
  transcripts : List TranscriptSegment
  chapterTitles : String
  progress : Int
  socketConnected : Bool
  recordRTC : Option Nat
  startedRecorders : List Nat
  stoppedRecorders : List Nat
  sentChunks : Nat
  nextRecorderId : Nat
  controlRequests : List ControlReq
  loggedErrors : Nat
deriving Repr, DecidableEq

/-- The state right after mount: the `useEffect` has connected the socket,
all React state slices hold their `useState` initial values, and no
recorder exists. -/
def initialState : AppState :=
  { recording := false
    transcripts := []
    chapterTitles := ""
    progress := 0
    socketConnected := true
    recordRTC := none
    startedRecorders := []
    stoppedRecorders := []
    sentChunks := 0
    nextRecorderId := 0
    controlRequests := []
    loggedErrors := 0 }

/-- One step of the socket event handlers registered in the `useEffect`
(App.tsx lines 46-88), in direct correspondence:
`join_room` only logs; the four transcript events append one segment built
exactly as in the source (`transcribe_final` uses
`data.transcript || data.text`); `transcription_progress` overwrites
`progress`; `chapter_titles` overwrites `chapterTitles` (the toast is a
pure UI effect and not part of the state). -/
def handleEvent (s : AppState) : ServerEvent → AppState
  | .joinRoom _ => s
  | .partialResult t sp =>
      { s with transcripts := s.transcripts ++ [⟨t, speakerOrUnknown sp⟩] }
  | .finalResult t sp =>
      { s with transcripts := s.transcripts ++ [⟨t, speakerOrUnknown sp⟩] }
  | .transcribePartial t sp =>
      { s with transcripts := s.transcripts ++ [⟨t, speakerOrUnknown sp⟩] }
  | .transcribeFinal tr t sp =>
      { s with transcripts := s.transcripts ++ [⟨jsOrString tr t, speakerOrUnknown sp⟩] }
  | .transcriptionProgress p => { s with progress := p }
  | .chapterTitles t => { s with chapterTitles := t }

/-- Whether an event is one of the four transcript-appending kinds. -/
def isTranscriptEvent : ServerEvent → Bool
  | .partialResult _ _ => true
  | .finalResult _ _ => true
  | .transcribePartial _ _ => true
  | .transcribeFinal _ _ _ => true
  | _ => false

/-- The segment a transcript event appends (`none` for the other events),
read off the handler bodies. -/
def segOfEvent : ServerEvent → Option TranscriptSegment
  | .partialResult t sp => some ⟨t, speakerOrUnknown sp⟩
  | .finalResult t sp => some ⟨t, speakerOrUnknown sp⟩
  | .transcribePartial t sp => some ⟨t, speakerOrUnknown sp⟩
  | .transcribeFinal tr t sp => some ⟨jsOrString tr t, speakerOrUnknown sp⟩
  | _ => none

/-- The synchronous head of `startRecording` (App.tsx lines 113-117):
`setTranscripts([]); setProgress(0); setChapterTitles(""); setRecording(true)`
— all before any await, hence before any network activity. -/
def startReset (s : AppState) : AppState :=
  { s with transcripts := [], progress := 0, chapterTitles := "", recording := true }

/-- `initTranscription` (App.tsx lines 97-109): POST
`/start_transcription_ct`; on failure the error is caught and logged
(`console.error`), so the function never throws.  `controlOk` is the
outcome of the fetch. -/
def initTranscription (controlOk : Bool) (s : AppState) : AppState :=
  { s with
      controlRequests := s.controlRequests ++ [ControlReq.start]
      loggedErrors := if controlOk then s.loggedErrors else s.loggedErrors + 1 }

/-- The tail of `startRecording` after `getUserMedia` succeeded
(App.tsx lines 124-143): a fresh `RecordRTC` instance is created and
written over `recordRTCRef.current`, and its `startRecording()` method is
invoked.  The previous value of the ref is neither stopped nor released. -/
def beginCapture (s : AppState) : AppState :=
  { s with
      recordRTC := some s.nextRecorderId
      startedRecorders := s.startedRecorders ++ [s.nextRecorderId]
      nextRecorderId := s.nextRecorderId + 1 }

/-- `startRecording` (App.tsx lines 112-144), strictly in source order:
(1) reset the four state slices and set `recording := true`;
(2) await `initTranscription` (never throws);
(3) await `getUserMedia` — if the microphone is denied (`micOk = false`)
the async function rejects with a permission error, with all mutations of
steps 1-2 already applied and nothing reverted;
(4) otherwise create and start a fresh recorder.
There is no guard on the current state: the body runs unconditionally. -/
def startRecording (controlOk micOk : Bool) (s : AppState) :
    AppState × Option StartErr :=
  let s1 := startReset s
  let s2 := initTranscription controlOk s1
  if micOk then (beginCapture s2, none) else (s2, some StartErr.permissionError)

/-- `stopRecording` (App.tsx lines 147-170), strictly in source order:
(1) `setRecording(false)` unconditionally;
(2) POST `/stop_transcription` unconditionally — there is no guard
checking that a session is active; a failure is caught and logged;
(3) if `recordRTCRef.current` is non-null, call its `stopRecording()`
method (the ref itself is not cleared);
the socket is never disconnected here (the `disconnect()` call in the
source is commented out). -/
def stopRecording (controlOk : Bool) (s : AppState) : AppState :=
  let s1 := { s with recording := false }
  let s2 := { s1 with
      controlRequests := s1.controlRequests ++ [ControlReq.stop]
      loggedErrors := if controlOk then s1.loggedErrors else s1.loggedErrors + 1 }
  match s2.recordRTC with
  | some r => { s2 with stoppedRecorders := s2.stoppedRecorders ++ [r] }
  | none => s2

/-- The `useEffect` cleanup (App.tsx lines 91-93): disposing the client
context disconnects the socket.  This is the only place the socket is
torn down. -/
def disposeClient (s : AppState) : AppState :=
  { s with socketConnected := false }

/-- Whether the recorder currently referenced by `recordRTCRef` has been
started and not stopped — only then does its `ondataavailable` callback
fire and emit `audio_data` chunks. -/
def recorderActive (s : AppState) : Bool :=
  match s.recordRTC with
  | some r => s.startedRecorders.contains r && !(s.stoppedRecorders.contains r)
  | none => false

/-- One tick of the capture timeSlice: the current recorder, if active,
emits one `audio_data` chunk over the socket (App.tsx lines 131-141). -/
def captureTick (s : AppState) : AppState :=
  if recorderActive s then { s with sentChunks := s.sentChunks + 1 } else s

/-- A state in which one session has been started successfully: recorder 0
exists, is started and not stopped, and `recording = true`. -/
def activeState : AppState := (startRecording true true initialState).1

/-! ## Helper lemmas -/

/-- Folding the handlers over a list of transcript-kind events appends
exactly the corresponding segments, in order, after the existing log. -/
theorem foldl_transcripts (events : List ServerEvent) (s : AppState)
    (h : ∀ e ∈ events, isTranscriptEvent e = true) :
    (events.foldl handleEvent s).transcripts
      = s.transcripts ++ events.filterMap segOfEvent := by
  induction events generalizing s with
  | nil => simp
  | cons e es ih =>
    have he : isTranscriptEvent e = true := h e (List.mem_cons_self _ _)
    have hes : ∀ e' ∈ es, isTranscriptEvent e' = true :=
      fun e' hm => h e' (List.mem_cons_of_mem _ hm)
    cases e with
    | joinRoom _ => simp [isTranscriptEvent] at he
    | transcriptionProgress _ => simp [isTranscriptEvent] at he
    | chapterTitles _ => simp [isTranscriptEvent] at he
    | partialResult t sp =>
        simp [handleEvent, segOfEvent, ih _ hes]
    | finalResult t sp =>
        simp [handleEvent, segOfEvent, ih _ hes]
    | transcribePartial t sp =>
        simp [handleEvent, segOfEvent, ih _ hes]
    | transcribeFinal tr t sp =>
        simp [handleEvent, segOfEvent, ih _ hes]

/-- Every transcript-kind event contributes exactly one segment. -/
theorem filterMap_segOfEvent_length (events : List ServerEvent)
    (h : ∀ e ∈ events, isTranscriptEvent e = true) :
    (events.filterMap segOfEvent).length = events.length := by
  induction events with
  | nil => rfl
  | cons e es ih =>
    have he : isTranscriptEvent e = true := h e (List.mem_cons_self _ _)
    have hes : ∀ e' ∈ es, isTranscriptEvent e' = true :=
      fun e' hm => h e' (List.mem_cons_of_mem _ hm)
    cases e <;> simp [isTranscriptEvent] at he <;>
      simp [segOfEvent, List.filterMap_cons, ih hes]

/-- `stopRecording` never touches the three aggregator slices nor the
socket connection. -/
theorem stopRecording_preserves (co : Bool) (s : AppState) :
    (stopRecording co s).transcripts = s.transcripts ∧
    (stopRecording co s).progress = s.progress ∧
    (stopRecording co s).chapterTitles = s.chapterTitles ∧
    (stopRecording co s).socketConnected = s.socketConnected := by
  unfold stopRecording
  cases s.recordRTC <;> simp

/-! ## Claims -/

/-- Claim C3: for every sequence of events received before a `start()`
call, invoking `start()` resets all aggregator state before any network
activity of the new session — TranscriptLog becomes empty, ProgressState
becomes 0 and ChapterTitles becomes the empty string — and this reset
never happens at `stop()`.  Formally: after any event history, the
synchronous reset head of `startRecording` empties the three slices while
issuing no control request and sending no chunk; `startRecording` is that
reset followed by the control request and capture start, and the slices
are still empty when `startRecording` returns; `stopRecording` leaves all
three slices unchanged. -/
theorem C3_reset_invariant (events : List ServerEvent) (s0 : AppState)
    (co mo : Bool) :
    ((startReset (events.foldl handleEvent s0)).transcripts = [] ∧
     (startReset (events.foldl handleEvent s0)).progress = 0 ∧
     (startReset (events.foldl handleEvent s0)).chapterTitles = "" ∧
     (startReset (events.foldl handleEvent s0)).controlRequests
       = (events.foldl handleEvent s0).controlRequests ∧
     (startReset (events.foldl handleEvent s0)).sentChunks
       = (events.foldl handleEvent s0).sentChunks) ∧
    (startRecording co mo (events.foldl handleEvent s0)
      = if mo then
          (beginCapture (initTranscription co (startReset (events.foldl handleEvent s0))), none)
        else
          (initTranscription co (startReset (events.foldl handleEvent s0)),
           some StartErr.permissionError)) ∧
    ((startRecording co mo (events.foldl handleEvent s0)).1.transcripts = [] ∧
     (startRecording co mo (events.foldl handleEvent s0)).1.progress = 0 ∧
     (startRecording co mo (events.foldl handleEvent s0)).1.chapterTitles = "") ∧
    (∀ (co2 : Bool) (t : AppState),
      (stopRecording co2 t).transcripts = t.transcripts ∧
      (stopRecording co2 t).progress = t.progress ∧
      (stopRecording co2 t).chapterTitles = t.chapterTitles) := by
  refine ⟨⟨rfl, rfl, rfl, rfl, rfl⟩, ?_, ?_, ?_⟩
  · cases mo <;> rfl
  · cases mo <;>
      exact ⟨rfl, rfl, rfl⟩
  · intro co2 t
    exact ⟨(stopRecording_preserves co2 t).1, (stopRecording_preserves co2 t).2.1,
      (stopRecording_preserves co2 t).2.2.1⟩

/-- Claim C4: each of the four transcript events (`partial_result`,
`final_result`, `transcribe_partial`, `transcribe_final`) appends exactly
one TranscriptSegment: after processing N such events the log is the old
log followed by the N corresponding segments in arrival order, so nothing
is dropped, merged or mutated, and its length grows by exactly N. -/
theorem C4_append_only (events : List ServerEvent) (s : AppState)
    (h : ∀ e ∈ events, isTranscriptEvent e = true) :
    (events.foldl handleEvent s).transcripts
      = s.transcripts ++ events.filterMap segOfEvent ∧
    (events.foldl handleEvent s).transcripts.length
      = s.transcripts.length + events.length := by
  refine ⟨foldl_transcripts events s h, ?_⟩
  rw [foldl_transcripts events s h]
  simp [filterMap_segOfEvent_length events h]

/-- Witness for C4 at a concrete two-event history from the mount state. -/
theorem C4_append_only_witness :
    (([ServerEvent.partialResult (some "hel") none,
       ServerEvent.finalResult (some "hello") (some "A")].foldl
        handleEvent initialState).transcripts
      = initialState.transcripts
        ++ [ServerEvent.partialResult (some "hel") none,
            ServerEvent.finalResult (some "hello") (some "A")].filterMap segOfEvent ∧
     ([ServerEvent.partialResult (some "hel") none,
       ServerEvent.finalResult (some "hello") (some "A")].foldl
        handleEvent initialState).transcripts.length
      = initialState.transcripts.length + 2) :=
  C4_append_only
    [ServerEvent.partialResult (some "hel") none,
     ServerEvent.finalResult (some "hello") (some "A")]
    initialState (by decide)

/-- Claim C8: malformed transcript events are tolerated via fallbacks:
a `transcribe_final` event with an absent `transcript` field and a
present `text` field yields a segment whose text is the `text` value,
and any of the four transcript events with an absent `speakerId` yields a
segment whose speakerId is the unknown-speaker sentinel `"?"`. -/
theorem C8_fallback_defaults (s : AppState) :
    (∀ (txt : String) (sp : Option String),
      (handleEvent s (ServerEvent.transcribeFinal none (some txt) sp)).transcripts
        = s.transcripts ++ [⟨some txt, speakerOrUnknown sp⟩]) ∧
    (∀ t : Option String,
      (handleEvent s (ServerEvent.partialResult t none)).transcripts
        = s.transcripts ++ [⟨t, "?"⟩]) ∧
    (∀ t : Option String,
      (handleEvent s (ServerEvent.finalResult t none)).transcripts
        = s.transcripts ++ [⟨t, "?"⟩]) ∧
    (∀ t : Option String,
      (handleEvent s (ServerEvent.transcribePartial t none)).transcripts
        = s.transcripts ++ [⟨t, "?"⟩]) ∧
    (∀ tr t : Option String,
      (handleEvent s (ServerEvent.transcribeFinal tr t none)).transcripts
        = s.transcripts ++ [⟨jsOrString tr t, "?"⟩]) :=
  ⟨fun _ _ => rfl, fun _ => rfl, fun _ => rfl, fun _ => rfl, fun _ _ => rfl⟩

/-- Claim C9: each `transcription_progress` event overwrites ProgressState
with the received value, last-write-wins, with no clamping and no
monotonicity enforcement: after any list of progress values (arbitrary
integers) the state holds the last one, and in particular the sequence
10, 45, 30 ends at 30. -/
theorem C9_progress_overwrite (s : AppState) (ps : List Int) :
    ((ps.map ServerEvent.transcriptionProgress).foldl handleEvent s).progress
      = ps.getLast?.getD s.progress ∧
    ((([10, 45, 30] : List Int).map ServerEvent.transcriptionProgress).foldl
        handleEvent initialState).progress = 30 := by
  refine ⟨?_, rfl⟩
  induction ps generalizing s with
  | nil => rfl
  | cons p ps ih =>
    cases ps with
    | nil => rfl
    | cons q qs =>
      have := ih (handleEvent s (ServerEvent.transcriptionProgress p))
      simpa [handleEvent] using
        ih (handleEvent s (ServerEvent.transcriptionProgress p))

/-- Claim C1 counterexample: from the idle mount state, a `start()` whose
microphone acquisition fails leaves `recording = true` — the state is
neither kept at nor reverted to false — even though the permission error
is surfaced, so the claim as stated is false on the code. -/
theorem C1_counterexample :
    initialState.recording = false ∧
    (startRecording true false initialState).1.recording = true ∧
    (startRecording true false initialState).2 = some StartErr.permissionError :=
  ⟨rfl, rfl, rfl⟩

/-- Claim C1, amended: if microphone acquisition fails during `start()`,
the permission error is surfaced to the caller and no recorder is created,
so no audio chunks are ever sent for that session; however the recording
flag has already been set to true and is not reverted to false.
Concretely, from the mount state a capture tick after such a failed start
emits nothing. -/
theorem C1_amended (co : Bool) (s : AppState) :
    (startRecording co false s).2 = some StartErr.permissionError ∧
    (startRecording co false s).1.recording = true ∧
    (startRecording co false s).1.recordRTC = s.recordRTC ∧
    (startRecording co false s).1.startedRecorders = s.startedRecorders ∧
    (startRecording co false s).1.sentChunks = s.sentChunks ∧
    recorderActive (startRecording co false initialState).1 = false ∧
    captureTick (startRecording co false initialState).1
      = (startRecording co false initialState).1 := by
  refine ⟨rfl, rfl, rfl, rfl, rfl, ?_, ?_⟩ <;> cases co <;> rfl

/-- Claim C2 counterexample: calling `stop()` from the idle mount state
(`recording = false`) still issues a `stop_transcription` control request,
so the claim that an idle stop is a guarded no-op issuing no control
request is false on the code. -/
theorem C2_counterexample :
    initialState.recording = false ∧
    (stopRecording true initialState).controlRequests = [ControlReq.stop] :=
  ⟨rfl, rfl⟩

/-- Claim C2, amended: `stop()` has no Idle guard.  Called when the
session is Idle and no recorder reference is held, it leaves the entire
component state unchanged except that it unconditionally issues a
`stop_transcription` control request (and logs an error if that request
fails); the only protection against an idle stop is the presentation
layer disabling the Stop button while not recording. -/
theorem C2_amended (co : Bool) (s : AppState)
    (h1 : s.recording = false) (h2 : s.recordRTC = none) :
    stopRecording co s
      = { s with
            controlRequests := s.controlRequests ++ [ControlReq.stop]
            loggedErrors := if co then s.loggedErrors else s.loggedErrors + 1 } := by
  unfold stopRecording
  rw [h2]
  cases s
  simp_all

/-- Witness for C2_amended at the mount state with a succeeding request. -/
theorem C2_amended_witness :
    stopRecording true initialState
      = { initialState with
            controlRequests := initialState.controlRequests ++ [ControlReq.stop]
            loggedErrors := if true then initialState.loggedErrors
                            else initialState.loggedErrors + 1 } :=
  C2_amended true initialState rfl rfl

/-- Claim C5 counterexample: a `partial_result` event and a `final_result`
event with identical payloads produce identical states, hence identical
log entries — so segments appended from partial-kind events cannot be
marked Partial and those from final-kind events marked Final in any way
observable when reading the log; the claim is false on the code, whose
`TranscriptSegment` interface has no finality field. -/
theorem C5_counterexample :
    handleEvent initialState (ServerEvent.partialResult (some "hello") (some "A"))
      = handleEvent initialState (ServerEvent.finalResult (some "hello") (some "A")) :=
  rfl

/-- Claim C5, amended: a stored TranscriptSegment carries only a text and
a speakerId — the source interface has no finality attribute — and the
partial-kind and final-kind handlers append identical segments for
identical payloads, so the finality of the originating event is not
recoverable from the log. -/
theorem C5_amended (s : AppState) (t sp : Option String) :
    handleEvent s (ServerEvent.partialResult t sp)
      = handleEvent s (ServerEvent.finalResult t sp) ∧
    handleEvent s (ServerEvent.partialResult t sp)
      = handleEvent s (ServerEvent.transcribePartial t sp) ∧
    (handleEvent s (ServerEvent.partialResult t sp)).transcripts
      = s.transcripts ++ [⟨t, speakerOrUnknown sp⟩] :=
  ⟨rfl, rfl, rfl⟩

/-- Claim C6: a network/backend failure of either control request is
caught and logged and is non-fatal.  With a failing
`start_transcription_ct`, `start()` surfaces no error, still creates and
starts a fresh recorder, and logs the failure; with a failing
`stop_transcription`, `stop()` still stops the current recorder (when one
is referenced) and logs the failure. -/
theorem C6_control_failure_nonfatal (s : AppState) :
    ((startRecording false true s).2 = none ∧
     (startRecording false true s).1.recordRTC = some s.nextRecorderId ∧
     (startRecording false true s).1.startedRecorders
       = s.startedRecorders ++ [s.nextRecorderId] ∧
     (startRecording false true s).1.loggedErrors = s.loggedErrors + 1) ∧
    (∀ r : Nat, s.recordRTC = some r →
      (stopRecording false s).stoppedRecorders = s.stoppedRecorders ++ [r] ∧
      (stopRecording false s).loggedErrors = s.loggedErrors + 1) := by
  constructor
  · exact ⟨rfl, rfl, rfl, rfl⟩
  · intro r hr
    unfold stopRecording
    rw [hr]
    exact ⟨rfl, rfl⟩

/-- Witness for C6 at a concrete started session (recorder 0 is live). -/
theorem C6_control_failure_nonfatal_witness :
    (stopRecording false activeState).stoppedRecorders
      = activeState.stoppedRecorders ++ [0] ∧
    (stopRecording false activeState).loggedErrors
      = activeState.loggedErrors + 1 :=
  (C6_control_failure_nonfatal activeState).2 0 rfl

/-- Claim C7: `stop()` does not tear down the streaming channel and does
not modify the aggregated state slices: after `stopRecording` the socket
connection flag, TranscriptLog, ProgressState and ChapterTitles are
unchanged; the socket is disconnected only by the client-context disposal
(`useEffect` cleanup); and a trailing server event arriving after stop is
still aggregated into the log. -/
theorem C7_stop_keeps_channel (co : Bool) (s : AppState) :
    (stopRecording co s).socketConnected = s.socketConnected ∧
    (stopRecording co s).transcripts = s.transcripts ∧
    (stopRecording co s).progress = s.progress ∧
    (stopRecording co s).chapterTitles = s.chapterTitles ∧
    (disposeClient s).socketConnected = false ∧
    (∀ t sp : Option String,
      (handleEvent (stopRecording co s) (ServerEvent.finalResult t sp)).transcripts
        = (stopRecording co s).transcripts ++ [⟨t, speakerOrUnknown sp⟩]) :=
  ⟨(stopRecording_preserves co s).2.2.2, (stopRecording_preserves co s).1,
   (stopRecording_preserves co s).2.1, (stopRecording_preserves co s).2.2.1,
   rfl, fun _ _ => rfl⟩

/-- Claim C10: `startRecording` enforces no Idle precondition.  Invoked
while a session is already active (`recording = true`, a live recorder
`r` referenced), it unconditionally clears the transcript log, zeroes
progress, clears the chapter titles, and overwrites the recorder
reference with a fresh instance without ever calling stop on `r` — the
prior recorder stays started-but-never-stopped, i.e. it is leaked. -/
theorem C10_no_idle_guard (co : Bool) (s : AppState) (r : Nat)
    (h1 : s.recording = true) (h2 : s.recordRTC = some r)
    (h3 : r ∈ s.startedRecorders) (h4 : r ∉ s.stoppedRecorders)
    (h5 : r < s.nextRecorderId) :
    (startRecording co true s).1.transcripts = [] ∧
    (startRecording co true s).1.progress = 0 ∧
    (startRecording co true s).1.chapterTitles = "" ∧
    (startRecording co true s).1.recording = true ∧
    (startRecording co true s).1.recordRTC = some s.nextRecorderId ∧
    (startRecording co true s).1.recordRTC ≠ some r ∧
    r ∈ (startRecording co true s).1.startedRecorders ∧
    (startRecording co true s).1.stoppedRecorders = s.stoppedRecorders ∧
    r ∉ (startRecording co true s).1.stoppedRecorders := by
  refine ⟨rfl, rfl, rfl, rfl, rfl, ?_, ?_, rfl, h4⟩
  · intro hc
    have : s.nextRecorderId = r := by
      simpa [startRecording, startReset, initTranscription, beginCapture] using hc
    omega
  · simp [startRecording, startReset, initTranscription, beginCapture]
    exact Or.inl h3

/-- Witness for C10: starting again from `activeState` (recorder 0 live,
`recording = true`) resets the slices and leaks recorder 0. -/
theorem C10_no_idle_guard_witness :
    (startRecording true true activeState).1.transcripts = [] ∧
    (startRecording true true activeState).1.progress = 0 ∧
    (startRecording true true activeState).1.chapterTitles = "" ∧
    (startRecording true true activeState).1.recording = true ∧
    (startRecording true true activeState).1.recordRTC
      = some activeState.nextRecorderId ∧
    (startRecording true true activeState).1.recordRTC ≠ some 0 ∧
    0 ∈ (startRecording true true activeState).1.startedRecorders ∧
    (startRecording true true activeState).1.stoppedRecorders
      = activeState.stoppedRecorders ∧
    0 ∉ (startRecording true true activeState).1.stoppedRecorders :=
  C10_no_idle_guard true activeState 0 rfl rfl (by decide) (by decide) (by decide)
